import Mathlib

/-!
Verification development for the Vigilis client.

The repository is a React Native client with two outbound HTTP services:
`transcribeAudio` (app/services/audioService.ts, the unnamed source file) and
`sendTranscript` / `notifyCivilianCallStarted` (app/services/transcriptService.ts),
plus two screen controllers (app/(tabs)/index.tsx and police.tsx) holding the
device-id initialisation and the send handler.

The embedding below models JavaScript values reachable from parsed JSON as an
inductive `Json` type, JS truthiness, property access, `JSON.stringify`, and
string conversion, and then translates each source function. Network effects
are modelled by passing an `Upstream` oracle describing when and how the
endpoint would respond; the client-side timeout plus `AbortController` pair is
the function `fetchWithTimeout` which yields `none` (aborted) whenever the
response would arrive after the configured deadline.
-/

namespace Vigilis

/-- JavaScript values that can result from `JSON.parse` (the response bodies
the client inspects). Numbers are modelled as integers: no claim involves
fractional values. -/
inductive Json where
  | null
  | bool (b : Bool)
  | num (n : Int)
  | str (s : String)
  | arr (elems : List Json)
  | obj (fields : List (String × Json))

/-- JS truthiness: `null`, `false`, `0` and `""` are falsy; every object and
array (even `[]`) is truthy. -/
def truthy : Json → Bool
  | .null => false
  | .bool b => b
  | .num n => !(n == 0)
  | .str s => !(s == "")
  | .arr _ => true
  | .obj _ => true

/-- Property access `v[k]` as the client uses it: a key lookup on an object,
and `undefined` (`none`) on every other value. Access on `null` throws in JS;
the call sites that can reach a `null` receiver model the throw separately. -/
def getField : Json → String → Option Json
  | .obj fs, k => fs.lookup k
  | _, _ => none

/-- The check `(k in data) && typeof data[k] === 'string'` followed by reading
`data[k]`: yields the field only when present with a string value. -/
def strField (data : Json) (k : String) : Option String :=
  match getField data k with
  | some (.str s) => some s
  | _ => none

/-- Escaping of one character inside a JSON string literal (quote and
backslash; the control-character escapes are not exercised by any claim). -/
def escapeChar (c : Char) : String :=
  if c = '"' then "\\\"" else if c = '\\' then "\\\\" else String.singleton c

/-- Escaping of a string for `JSON.stringify`. -/
def escape (s : String) : String :=
  String.join (s.toList.map escapeChar)

/-- An opening brace as text. -/
def lbrace : String := "\x7b"

/-- A closing brace as text. -/
def rbrace : String := "\x7d"

mutual

/-- `JSON.stringify` on a parsed-JSON value. -/
def stringify : Json → String
  | .null => "null"
  | .bool b => if b then "true" else "false"
  | .num n => toString n
  | .str s => "\"" ++ escape s ++ "\""
  | .arr es => "[" ++ stringifyList es ++ "]"
  | .obj fs => lbrace ++ stringifyFields fs ++ rbrace

/-- Elements of an array, comma separated. -/
def stringifyList : List Json → String
  | [] => ""
  | [e] => stringify e
  | e :: es => stringify e ++ "," ++ stringifyList es

/-- Fields of an object, comma separated. -/
def stringifyFields : List (String × Json) → String
  | [] => ""
  | [(k, v)] => "\"" ++ escape k ++ "\":" ++ stringify v
  | (k, v) :: fs => "\"" ++ escape k ++ "\":" ++ stringify v ++ "," ++ stringifyFields fs

end

mutual

/-- JS `String(v)` conversion, as used by `Array.prototype.join` and template
literals: strings pass through, arrays join their elements with commas
(`null` elements becoming empty), objects print as `[object Object]`. -/
def jsToString : Json → String
  | .null => "null"
  | .bool b => if b then "true" else "false"
  | .num n => toString n
  | .str s => s
  | .arr es => jsToStringList es
  | .obj _ => "[object Object]"

/-- Array element conversion for `toString`: inside an array a `null` element
prints as the empty string. -/
def jsToStringList : List Json → String
  | [] => ""
  | [e] => match e with
    | .null => ""
    | e => jsToString e
  | e :: es =>
    (match e with
     | .null => ""
     | e => jsToString e) ++ "," ++ jsToStringList es

end

/-- Failure modes of `transcribeAudio`: an `Error` constructed by the code
itself with a message, or a `TypeError` raised by the JS engine (the `in`
operator on a primitive, or a property access on `null`). -/
inductive TErr where
  | errMsg (s : String)
  | jsTypeError

/-- The fixed message returned when the parsed body is falsy (line 59 of the
audio service). -/
def noTranscriptionMsg : String := "No transcription returned from ElevenLabs."

/-- The diagnostic fallback of line 72: the serialized body behind a fixed
text. -/
def diagnostic (data : Json) : String :=
  "Unexpected transcription response: " ++ stringify data

/-- JS `x || y` on possibly-undefined values: `y` unless `x` is present and
truthy. -/
def jsOrVal : Option Json → Option Json → Option Json
  | some v, y => if truthy v then some v else y
  | none, y => y

/-- One step of `channels.map(c => c.content || c.text || c.transcript)`:
the JS `||` chain over the three properties. Accessing a property of a `null`
channel entry throws a `TypeError`. -/
def chanVal : Json → Except TErr (Option Json)
  | .null => .error .jsTypeError
  | c =>
    .ok (jsOrVal (jsOrVal (getField c "content") (getField c "text")) (getField c "transcript"))

/-- The `map` over the channels array, left to right, stopping at the first
thrown error exactly as a JS `map` would propagate it. -/
def mapChanVals : List Json → Except TErr (List (Option Json))
  | [] => .ok []
  | c :: cs =>
    match chanVal c with
    | .error e => .error e
    | .ok v =>
      match mapChanVals cs with
      | .error e => .error e
      | .ok vs => .ok (v :: vs)

/-- One element of the `.filter(Boolean)` step: an absent or falsy value is
dropped. -/
def keepTruthy : Option Json → Option Json
  | some j => if truthy j then some j else none
  | none => none

/-- The `.filter(Boolean)` step: keep only present, truthy values. -/
def filterTruthyVals (vs : List (Option Json)) : List Json :=
  vs.filterMap keepTruthy

/-- The whole channels pipeline of line 67: map then filter. -/
def channelTexts (cs : List Json) : Except TErr (List Json) :=
  (mapChanVals cs).map filterTruthyVals

/-- Lines 59 to 72 of the audio service: extraction of the transcript text
from the parsed response body `data`. The truthiness guard comes first; a
string body is returned whole; on a truthy primitive the `in` operator throws
a `TypeError`; otherwise the string-valued `text`, `content`, `transcript`
fields are tried in order, then a `channels` array, then the diagnostic
fallback. -/
def transcribeResponse (data : Json) : Except TErr String :=
  if truthy data then
    match data with
    | .str s => .ok s
    | .bool _ => .error .jsTypeError
    | .num _ => .error .jsTypeError
    | _ =>
      match strField data "text" with
      | some t => .ok t
      | none =>
      match strField data "content" with
      | some t => .ok t
      | none =>
      match strField data "transcript" with
      | some t => .ok t
      | none =>
      match getField data "channels" with
      | some (.arr cs) =>
        (match channelTexts cs with
         | .error e => .error e
         | .ok [] => .ok (diagnostic data)
         | .ok (t :: ts) => .ok (String.intercalate " " ((t :: ts).map jsToString)))
      | _ => .ok (diagnostic data)
  else .ok noTranscriptionMsg

/-- A channel-entry field that is absent or holds the empty string. -/
def emptyOrAbsent : Option Json → Bool
  | none => true
  | some (.str s) => s == ""
  | some _ => false

/-- A channel entry that is an object whose `content`, `text` and
`transcript` fields are each absent or the empty string. -/
def emptyChan : Json → Bool
  | .obj fs =>
    emptyOrAbsent (fs.lookup "content") && emptyOrAbsent (fs.lookup "text")
      && emptyOrAbsent (fs.lookup "transcript")
  | _ => false

/-- Substring containment, used to state that an error message carries a
piece of text. -/
def containsText (s sub : String) : Prop := ∃ a b, s = a ++ sub ++ b

/-! ## The network model

A `fetch` call is modelled by an `Upstream` oracle: when (in milliseconds) the
endpoint would answer, and with what. The client pairs every request with
`setTimeout(() => controller.abort(), timeoutMs)`; a response that would
arrive after the deadline is therefore never seen — the in-flight request is
aborted and the promise rejects with `AbortError`, modelled as `none`. -/

/-- What the upstream endpoint would answer: the HTTP status and status text,
the body as text (`res.text()`), and the body as parsed JSON (`res.json()`,
whose rejection on malformed JSON carries the engine message). -/
structure UpstreamResponse where
  status : Nat
  statusText : String
  bodyText : String
  bodyJson : Except String Json

/-- The oracle for one request: `arrival = none` means the endpoint never
answers; `some t` means the answer would arrive `t` milliseconds in. -/
structure Upstream where
  arrival : Option Nat
  resp : UpstreamResponse

/-- The `res.ok` flag of `fetch`: status in the 200 to 299 range. -/
def respOk (r : UpstreamResponse) : Bool :=
  decide (200 ≤ r.status) && decide (r.status < 300)

/-- A `fetch` guarded by an `AbortController` armed at `timeoutMs`: the
response is delivered only if it arrives inside the deadline, otherwise the
request is aborted (`none`, the `AbortError` rejection). -/
def fetchWithTimeout (timeoutMs : Nat) (u : Upstream) : Option UpstreamResponse :=
  match u.arrival with
  | some t => if t ≤ timeoutMs then some u.resp else none
  | none => none

/-! ## transcriptService.ts -/

/-- The module-level base URL of transcriptService.ts. -/
def BASE_URL : String := "https://vigilis.onrender.com"

/-- An outbound JSON request of the relay client, with the payload kept as a
value (the code builds the object and then `JSON.stringify`s it) and the
abort deadline that was configured for it. -/
structure Request where
  url : String
  method : String
  payload : Json
  timeoutMs : Nat

/-- The payload object built at lines 25 to 29 of transcriptService.ts. -/
def sendTranscriptPayload (transcript sessionId caller : String) : Json :=
  .obj [("incident_id", .str sessionId), ("transcript", .str transcript), ("caller", .str caller)]

/-- The full request `sendTranscript` posts. -/
def sendTranscriptRequest (transcript sessionId : String) (timeoutMs : Nat) (caller : String) : Request :=
  { url := BASE_URL ++ "/incident/update_transcript"
    method := "POST"
    payload := sendTranscriptPayload transcript sessionId caller
    timeoutMs := timeoutMs }

/-- `sendTranscript` of transcriptService.ts: posts the payload with an abort
deadline; on abort it throws the fixed timeout message, on a non-ok status it
throws the status and body text, otherwise it resolves with `res.json()`
(whose own parse failure is rethrown). Returns the outcome together with the
request it issued. -/
def sendTranscript (transcript sessionId : String) (timeoutMs : Nat) (caller : String)
    (u : Upstream) : Except String Json × Request :=
  (match fetchWithTimeout timeoutMs u with
   | none => .error "Request timed out sending transcript"
   | some r =>
     if respOk r then r.bodyJson
     else .error ("Failed to send transcript: " ++ toString r.status ++ " " ++ r.bodyText)
  , sendTranscriptRequest transcript sessionId timeoutMs caller)

/-- Result of `notifyCivilianCallStarted`: either the ok response itself, or
the `{ ok: true, fallback: true }` object returned when the 404 fallback
succeeded. -/
inductive NotifyResult where
  | response (r : UpstreamResponse)
  | fallbackOk

/-- `notifyCivilianCallStarted` of transcriptService.ts, given the response of
the call-started endpoint (this fetch has no abort deadline) and the upstream
oracle that a fallback `sendTranscript` call would see. Returns the outcome
together with the list of `sendTranscript` requests it issued. On a 404 it
falls back to `sendTranscript("", sessionId, 5000, "civilian")`; if that also
throws, the two failures are combined into one message. Any other non-ok
status throws directly with the status and body, issuing no fallback. -/
def notifyCivilianCallStarted (sessionId : String) (res : UpstreamResponse)
    (fallbackEnv : Upstream) : Except String NotifyResult × List Request :=
  if respOk res then (.ok (.response res), [])
  else if res.status == 404 then
    let fb := sendTranscript "" sessionId 5000 "civilian" fallbackEnv
    match fb.1 with
    | .ok _ => (.ok .fallbackOk, [fb.2])
    | .error m =>
      (.error ("Failed to notify call started (404) and fallback failed: " ++ m), [fb.2])
  else
    (.error ("Failed to notify call started: " ++ toString res.status ++ " " ++ res.bodyText), [])

/-! ## audioService.ts (the unnamed source file) -/

/-- JS `x || d` for an optional string and a default: the default replaces an
absent or empty value. -/
def jsOrStr : Option String → String → String
  | some s, d => if s == "" then d else s
  | none, d => d

/-- JS falsiness of an optional environment string: unset or empty. -/
def jsFalsyOpt : Option String → Bool
  | some s => s == ""
  | none => true

/-- The input of `transcribeAudio`: a React Native style file object
`{ uri, name?, type? }` or a browser `Blob`/`File` (kept opaque). -/
inductive FileInput where
  | rn (uri : String) (name : Option String) (mime : Option String)
  | blob (contents : String)

/-- One value appended to the multipart `FormData`. -/
inductive FormValue where
  | rnfile (uri name mime : String)
  | blob (contents : String)
  | str (s : String)

/-- The `file` entry of the form: the RN branch fills in the default name
`recording.m4a` and type `audio/mp4`; a browser blob is appended directly. -/
def buildFormFile : FileInput → FormValue
  | .rn uri name mime => .rnfile uri (jsOrStr name "recording.m4a") (jsOrStr mime "audio/mp4")
  | .blob c => .blob c

/-- The multipart request `transcribeAudio` issues: URL, `xi-api-key` header,
the form entries in the order appended, and the abort deadline. -/
structure SttRequest where
  url : String
  apiKeyHeader : String
  form : List (String × FormValue)
  timeoutMs : Nat

/-- The default speech-to-text URL used when the environment does not supply
one. -/
def defaultSttUrl : String := "https://api.elevenlabs.io/v1/speech-to-text"

/-- `res.json().catch(() => null)` of line 57. -/
def jsonOrNull : Except String Json → Json
  | .ok j => j
  | .error _ => .null

/-- `transcribeAudio` of audioService.ts, with the two module-level
environment values (`EXPO_PUBLIC_ELEVENLABS_API_KEY`,
`EXPO_PUBLIC_ELEVENLABS_STT_URL`) passed explicitly. A falsy API key throws
the configuration message before the form is built or any request issued
(request component `none`). Otherwise the form and request are built, the
fetch runs under the abort deadline, a non-ok status throws with status,
status text and body, and an ok response goes through `transcribeResponse`
on the parsed (or nulled) body. -/
def transcribeAudio (apiKey sttUrlEnv : Option String) (file : FileInput)
    (timeoutMs : Nat) (u : Upstream) : Except TErr String × Option SttRequest :=
  if jsFalsyOpt apiKey then
    (.error (.errMsg "ElevenLabs API key not configured (EXPO_PUBLIC_ELEVENLABS_API_KEY)"), none)
  else
    let req : SttRequest :=
      { url := jsOrStr sttUrlEnv defaultSttUrl
        apiKeyHeader := (match apiKey with | some k => k | none => "")
        form := [("file", buildFormFile file), ("model_id", .str "scribe_v1")]
        timeoutMs := timeoutMs }
    (match fetchWithTimeout timeoutMs u with
     | none => .error (.errMsg "Transcription request timed out")
     | some r =>
       if respOk r then transcribeResponse (jsonOrNull r.bodyJson)
       else .error (.errMsg ("ElevenLabs STT request failed: " ++ toString r.status ++ " "
         ++ r.statusText ++ " " ++ r.bodyText))
    , some req)

/-! ## Device identity (initDeviceId of both tabs) -/

/-- The fixed AsyncStorage key. -/
def DEVICE_ID_KEY : String := "@vigilis_device_id"

/-- The local key-value store, newest binding first. -/
abbrev Storage := List (String × String)

/-- `AsyncStorage.getItem`. -/
def getItem (s : Storage) (k : String) : Option String := s.lookup k

/-- `AsyncStorage.setItem`: the new binding shadows any older one. -/
def setItem (s : Storage) (k v : String) : Storage := (k, v) :: s

/-- `initDeviceId` of both tab screens, with the `uuid.v4().toString()`
generator supplied as `freshId`: reads the fixed key; a missing or falsy
(empty) stored value is replaced by the fresh identifier, which is persisted;
returns the identifier set into state and the resulting store. -/
def initDeviceId (store : Storage) (freshId : String) : String × Storage :=
  match getItem store DEVICE_ID_KEY with
  | some v => if v == "" then (freshId, setItem store DEVICE_ID_KEY freshId) else (v, store)
  | none => (freshId, setItem store DEVICE_ID_KEY freshId)

/-! ## The send handler (handleSend of both tabs) -/

/-- The send-relevant UI state of one tab screen. -/
structure ScreenState where
  transcript : String
  deviceId : Option String
  sendLoading : Bool
  sendError : Option String
  sendSuccess : Option String

/-- The initial transcript placeholder of both screens. The apostrophes are
assembled explicitly. -/
def apos : String := String.singleton (Char.ofNat 39)

/-- The text put into `useState` for the transcript before any recording. -/
def initialPlaceholder : String :=
  "Tap " ++ apos ++ "Start Recording" ++ apos ++ " to begin..."

/-- JS `String.prototype.startsWith`: a prefix test, evaluated on the
underlying character lists so that concrete instances compute. -/
def strStartsWith (s pre : String) : Bool := pre.data.isPrefixOf s.data

/-- The success banner: a template literal over `resp.incident_id`, where a
missing field renders as `undefined`. -/
def successMsg (resp : Json) : String :=
  "Transcript sent successfully to incident " ++
    (match getField resp "incident_id" with
     | some j => jsToString j
     | none => "undefined")

/-- `handleSend` of both tab screens (the caller tag is `"civilian"` on the
caller tab and `"police officer"` on the police tab). A falsy transcript or
one starting with `Recording` or `Tap` is rejected with the no-transcript
error; a falsy device id is rejected with the not-initialized error; in both
rejections no network request is made and the rest of the state is left
alone. Otherwise `sendTranscript(transcript, deviceId, 15000, caller)` runs:
on success the error banner clears and the success banner records the
returned incident id; on failure the error banner shows the message and the
success banner clears; either way `sendLoading` ends `false`. Returns the new
state together with the request issued, if any. -/
def handleSend (s : ScreenState) (caller : String) (u : Upstream) :
    ScreenState × Option Request :=
  if s.transcript == "" || strStartsWith s.transcript "Recording"
      || strStartsWith s.transcript "Tap" then
    ({ s with sendError := some "No transcript to send" }, none)
  else
    match s.deviceId with
    | none => ({ s with sendError := some "Device ID not initialized" }, none)
    | some did =>
      if did == "" then ({ s with sendError := some "Device ID not initialized" }, none)
      else
        let sent := sendTranscript s.transcript did 15000 caller u
        match sent.1 with
        | .ok resp =>
          ({ s with sendLoading := false, sendError := none, sendSuccess := some (successMsg resp) },
           some sent.2)
        | .error m =>
          ({ s with sendLoading := false, sendError := some m, sendSuccess := none }, some sent.2)

/-! ## Theorems -/

/-- C3: for every transcript text, incident key and caller role,
`sendTranscript` posts to the fixed update-transcript endpoint a JSON body
whose `incident_id` field equals the given incident key, whose `transcript`
field equals the given text byte-for-byte, and whose `caller` field equals
the given role. -/
theorem C3_sendTranscript_payload (transcript sessionId caller : String) (timeoutMs : Nat)
    (u : Upstream) :
    (sendTranscript transcript sessionId timeoutMs caller u).2.url
        = "https://vigilis.onrender.com/incident/update_transcript" ∧
    (sendTranscript transcript sessionId timeoutMs caller u).2.method = "POST" ∧
    getField (sendTranscript transcript sessionId timeoutMs caller u).2.payload "incident_id"
        = some (.str sessionId) ∧
    getField (sendTranscript transcript sessionId timeoutMs caller u).2.payload "transcript"
        = some (.str transcript) ∧
    getField (sendTranscript transcript sessionId timeoutMs caller u).2.payload "caller"
        = some (.str caller) := by
  refine ⟨rfl, rfl, ?_, ?_, ?_⟩ <;>
    simp [sendTranscript, sendTranscriptRequest, sendTranscriptPayload, getField, List.lookup]

/-- C5: `initDeviceId` run twice against the same storage with no intervening
clear returns the identical identifier both times; a non-empty identifier
already stored under the fixed key is returned as is and the store is left
untouched; a fresh identifier is persisted exactly when the key is absent.
The `freshId ≠ ""` hypothesis reflects that `uuid.v4().toString()` is never
empty. -/
theorem C5_initDeviceId_idempotent (store : Storage) (f1 f2 v : String) (hf : f1 ≠ "") :
    ((initDeviceId (initDeviceId store f1).2 f2).1 = (initDeviceId store f1).1) ∧
    (v ≠ "" → getItem store DEVICE_ID_KEY = some v → initDeviceId store f1 = (v, store)) ∧
    (getItem store DEVICE_ID_KEY = none →
      initDeviceId store f1 = (f1, setItem store DEVICE_ID_KEY f1)) := by
  refine ⟨?_, ?_, ?_⟩
  · rcases h : List.lookup DEVICE_ID_KEY store with _ | w
    · simp [initDeviceId, getItem, setItem, h, List.lookup, hf]
    · by_cases hw : w = ""
      · subst hw; simp [initDeviceId, getItem, setItem, h, List.lookup, hf]
      · simp [initDeviceId, getItem, setItem, h, List.lookup, hw]
  · intro hv hsome
    simp [initDeviceId, hsome, hv]
  · intro hnone
    simp [initDeviceId, hnone]

/-- C5 witness: starting from an empty store the two calls agree; a stored
identifier is returned untouched; an absent key gets the fresh identifier
persisted. -/
theorem C5_initDeviceId_idempotent_witness :
    ((initDeviceId (initDeviceId [] "id-a").2 "id-b").1 = (initDeviceId [] "id-a").1) ∧
    initDeviceId [("@vigilis_device_id", "id-x")] "id-a"
        = ("id-x", [("@vigilis_device_id", "id-x")]) ∧
    initDeviceId [] "id-a" = ("id-a", setItem [] DEVICE_ID_KEY "id-a") :=
  ⟨(C5_initDeviceId_idempotent [] "id-a" "id-b" "w" (by decide)).1,
   (C5_initDeviceId_idempotent [("@vigilis_device_id", "id-x")] "id-a" "id-b" "id-x"
      (by decide)).2.1 (by decide) rfl,
   (C5_initDeviceId_idempotent [] "id-a" "id-b" "w" (by decide)).2.2 rfl⟩

/-- C7: on any non-success status other than 404 the notification fails
directly with the upstream status and response body in the message, and no
fallback `sendTranscript` request is issued. -/
theorem C7_notify_non404_direct (sessionId : String) (res : UpstreamResponse) (env : Upstream)
    (hok : respOk res = false) (h404 : res.status ≠ 404) :
    (notifyCivilianCallStarted sessionId res env).1
      = .error ("Failed to notify call started: " ++ toString res.status ++ " " ++ res.bodyText) ∧
    (notifyCivilianCallStarted sessionId res env).2 = [] := by
  simp [notifyCivilianCallStarted, hok, h404]

/-- C7 witness: a 500 response with body `boom` surfaces directly and issues
no fallback. -/
theorem C7_notify_non404_direct_witness :
    (notifyCivilianCallStarted "sess" ⟨500, "Server Error", "boom", .error "bad json"⟩
        ⟨none, ⟨500, "Server Error", "boom", .error "bad json"⟩⟩).1
      = .error ("Failed to notify call started: " ++ toString 500 ++ " " ++ "boom") ∧
    (notifyCivilianCallStarted "sess" ⟨500, "Server Error", "boom", .error "bad json"⟩
        ⟨none, ⟨500, "Server Error", "boom", .error "bad json"⟩⟩).2 = [] :=
  C7_notify_non404_direct "sess" ⟨500, "Server Error", "boom", .error "bad json"⟩
    ⟨none, ⟨500, "Server Error", "boom", .error "bad json"⟩⟩ rfl (by decide)

/-- C10: with the API key unset (or empty, which the code treats alike), the
transcription call fails at once with the configuration message and no form
is built and no request issued (the request component is `none`). -/
theorem C10_no_key_no_request (apiKey sttUrl : Option String) (file : FileInput)
    (timeoutMs : Nat) (u : Upstream) (hkey : jsFalsyOpt apiKey = true) :
    transcribeAudio apiKey sttUrl file timeoutMs u
      = (.error (.errMsg "ElevenLabs API key not configured (EXPO_PUBLIC_ELEVENLABS_API_KEY)"),
         none) := by
  simp [transcribeAudio, hkey]

/-- C10 witness: the unset key at a concrete file and environment. -/
theorem C10_no_key_no_request_witness :
    transcribeAudio none none (.blob "audio-bytes") 60000
        ⟨some 10, ⟨200, "OK", "", .ok (.obj [("text", .str "hello")])⟩⟩
      = (.error (.errMsg "ElevenLabs API key not configured (EXPO_PUBLIC_ELEVENLABS_API_KEY)"),
         none) :=
  C10_no_key_no_request none none (.blob "audio-bytes") 60000
    ⟨some 10, ⟨200, "OK", "", .ok (.obj [("text", .str "hello")])⟩⟩ rfl

/-- C2: on a 404 the notification issues exactly one fallback request, the
`sendTranscript` one with empty transcript, the same incident key, a 5000 ms
deadline and caller `civilian`; and when that fallback throws with message
`m`, the single surfaced message is the combined one, containing both the
original 404 failure text and `m`. -/
theorem C2_notify_404_fallback (sessionId : String) (res : UpstreamResponse) (env : Upstream)
    (m : String) (h404 : res.status = 404) :
    (notifyCivilianCallStarted sessionId res env).2
        = [sendTranscriptRequest "" sessionId 5000 "civilian"] ∧
    getField (sendTranscriptRequest "" sessionId 5000 "civilian").payload "transcript"
        = some (.str "") ∧
    getField (sendTranscriptRequest "" sessionId 5000 "civilian").payload "incident_id"
        = some (.str sessionId) ∧
    getField (sendTranscriptRequest "" sessionId 5000 "civilian").payload "caller"
        = some (.str "civilian") ∧
    (sendTranscriptRequest "" sessionId 5000 "civilian").timeoutMs = 5000 ∧
    ((sendTranscript "" sessionId 5000 "civilian" env).1 = .error m →
      (notifyCivilianCallStarted sessionId res env).1
        = .error ("Failed to notify call started (404) and fallback failed: " ++ m) ∧
      containsText ("Failed to notify call started (404) and fallback failed: " ++ m) "404" ∧
      containsText ("Failed to notify call started (404) and fallback failed: " ++ m) m) := by
  have hok : respOk res = false := by simp [respOk, h404]
  refine ⟨?_, ?_, ?_, ?_, rfl, ?_⟩
  · have hreq : (sendTranscript "" sessionId 5000 "civilian" env).2
        = sendTranscriptRequest "" sessionId 5000 "civilian" := rfl
    rcases hr : (sendTranscript "" sessionId 5000 "civilian" env).1 with m' | r <;>
      simp [notifyCivilianCallStarted, hok, h404, hr, hreq]
  · simp [sendTranscriptRequest, sendTranscriptPayload, getField, List.lookup]
  · simp [sendTranscriptRequest, sendTranscriptPayload, getField, List.lookup]
  · simp [sendTranscriptRequest, sendTranscriptPayload, getField, List.lookup]
  · intro hm
    refine ⟨by simp [notifyCivilianCallStarted, hok, h404, hm], ?_, ?_⟩
    · exact ⟨"Failed to notify call started (", ") and fallback failed: " ++ m, rfl⟩
    · refine ⟨"Failed to notify call started (404) and fallback failed: ", "", ?_⟩
      simp

/-- C2 witness: a 404 with a fallback environment that times out; the
combined message carries the timeout text of the fallback failure. -/
theorem C2_notify_404_fallback_witness :
    (notifyCivilianCallStarted "sess" ⟨404, "Not Found", "no route", .error "nf"⟩
        ⟨none, ⟨404, "Not Found", "no route", .error "nf"⟩⟩).2
      = [sendTranscriptRequest "" "sess" 5000 "civilian"] ∧
    (notifyCivilianCallStarted "sess" ⟨404, "Not Found", "no route", .error "nf"⟩
        ⟨none, ⟨404, "Not Found", "no route", .error "nf"⟩⟩).1
      = .error ("Failed to notify call started (404) and fallback failed: "
          ++ "Request timed out sending transcript") :=
  ⟨(C2_notify_404_fallback "sess" ⟨404, "Not Found", "no route", .error "nf"⟩
      ⟨none, ⟨404, "Not Found", "no route", .error "nf"⟩⟩
      "Request timed out sending transcript" rfl).1,
   ((C2_notify_404_fallback "sess" ⟨404, "Not Found", "no route", .error "nf"⟩
      ⟨none, ⟨404, "Not Found", "no route", .error "nf"⟩⟩
      "Request timed out sending transcript" rfl).2.2.2.2.2 rfl).1⟩

/-- C4: a request whose upstream response would only arrive after the
configured deadline (or never) is aborted — `fetchWithTimeout` yields
`none` — and both `sendTranscript` and `transcribeAudio` fail with their
timeout message, regardless of the response the upstream would eventually
have produced. -/
theorem C4_timeout_aborts (transcript sessionId caller : String) (timeoutMs : Nat)
    (u : Upstream) (apiKey sttUrl : Option String) (file : FileInput)
    (hlate : ∀ t, u.arrival = some t → timeoutMs < t) (hkey : jsFalsyOpt apiKey = false) :
    fetchWithTimeout timeoutMs u = none ∧
    (sendTranscript transcript sessionId timeoutMs caller u).1
      = .error "Request timed out sending transcript" ∧
    (transcribeAudio apiKey sttUrl file timeoutMs u).1
      = .error (.errMsg "Transcription request timed out") := by
  have hf : fetchWithTimeout timeoutMs u = none := by
    rcases h : u.arrival with _ | t
    · simp [fetchWithTimeout, h]
    · have ht := hlate t h
      simp only [fetchWithTimeout, h]
      rw [if_neg (by omega)]
  exact ⟨hf, by simp [sendTranscript, hf], by simp [transcribeAudio, hkey, hf]⟩

/-- C4 witness: with a 5000 ms deadline and an upstream that would answer 200
at 6000 ms, both calls time out. -/
theorem C4_timeout_aborts_witness :
    fetchWithTimeout 5000 ⟨some 6000, ⟨200, "OK", "late", .ok (.str "late")⟩⟩ = none ∧
    (sendTranscript "text" "sess" 5000 "civilian"
        ⟨some 6000, ⟨200, "OK", "late", .ok (.str "late")⟩⟩).1
      = .error "Request timed out sending transcript" ∧
    (transcribeAudio (some "key") none (.blob "audio") 5000
        ⟨some 6000, ⟨200, "OK", "late", .ok (.str "late")⟩⟩).1
      = .error (.errMsg "Transcription request timed out") :=
  C4_timeout_aborts "text" "sess" "civilian" 5000
    ⟨some 6000, ⟨200, "OK", "late", .ok (.str "late")⟩⟩ (some "key") none (.blob "audio")
    (by intro t h; injection h with h2; omega) rfl

/-- C6: the send action makes no network request and sets an error banner
whenever the transcript still equals the initial placeholder, or begins with
the recording-in-progress marker, or the device identity is unresolved; and
conversely a request is only issued when none of those hold. -/
theorem C6_send_guard (s : ScreenState) (caller : String) (u : Upstream) :
    ((s.transcript = initialPlaceholder ∨ strStartsWith s.transcript "Recording" = true
        ∨ s.deviceId = none) →
      (handleSend s caller u).2 = none ∧ (handleSend s caller u).1.sendError.isSome = true) ∧
    ((handleSend s caller u).2 ≠ none →
      s.transcript ≠ initialPlaceholder ∧ strStartsWith s.transcript "Recording" = false ∧
        s.deviceId ≠ none) := by
  have hrej : (s.transcript = initialPlaceholder ∨ strStartsWith s.transcript "Recording" = true
      ∨ s.deviceId = none) →
      (handleSend s caller u).2 = none ∧ (handleSend s caller u).1.sendError.isSome = true := by
    intro h
    rcases h with h1 | h2 | h3
    · have hg : strStartsWith s.transcript "Tap" = true := by
        rw [h1]; decide
      simp [handleSend, hg]
    · simp [handleSend, h2]
    · by_cases hg : (s.transcript == "" || strStartsWith s.transcript "Recording"
          || strStartsWith s.transcript "Tap") = true
      · simp [handleSend, hg]
      · have hg' : (s.transcript == "" || strStartsWith s.transcript "Recording"
            || strStartsWith s.transcript "Tap") = false := by
          revert hg
          cases s.transcript == "" || strStartsWith s.transcript "Recording"
            || strStartsWith s.transcript "Tap" <;> simp
        simp [handleSend, hg', h3]
  refine ⟨hrej, ?_⟩
  intro h2
  refine ⟨fun hbad => h2 (hrej (Or.inl hbad)).1, ?_, fun hbad => h2 (hrej (Or.inr (Or.inr hbad))).1⟩
  by_cases hb : strStartsWith s.transcript "Recording" = true
  · exact absurd (hrej (Or.inr (Or.inl hb))).1 h2
  · revert hb
    cases strStartsWith s.transcript "Recording" <;> simp

/-- C6 witness: with the transcript still at the initial placeholder the send
is rejected and no request issued. -/
theorem C6_send_guard_witness :
    (handleSend ⟨initialPlaceholder, some "dev-1", false, none, none⟩ "civilian"
        ⟨some 0, ⟨200, "OK", "", .ok (.obj [("incident_id", .str "i1")])⟩⟩).2 = none ∧
    (handleSend ⟨initialPlaceholder, some "dev-1", false, none, none⟩ "civilian"
        ⟨some 0, ⟨200, "OK", "", .ok (.obj [("incident_id", .str "i1")])⟩⟩).1.sendError.isSome
      = true :=
  (C6_send_guard ⟨initialPlaceholder, some "dev-1", false, none, none⟩ "civilian"
    ⟨some 0, ⟨200, "OK", "", .ok (.obj [("incident_id", .str "i1")])⟩⟩).1 (Or.inl rfl)

/-- C8: when the guards pass and `sendTranscript` fails with message `m`, the
new state shows exactly that message, records no success, keeps the
transcript and device identity unchanged, and ends with `sendLoading` off
(the send button is enabled again, so the action can be retried). -/
theorem C8_send_failure_frame (s : ScreenState) (caller did m : String) (u : Upstream)
    (hg : (s.transcript == "" || strStartsWith s.transcript "Recording"
            || strStartsWith s.transcript "Tap") = false)
    (hdid : s.deviceId = some did) (hne : did ≠ "")
    (hm : (sendTranscript s.transcript did 15000 caller u).1 = .error m) :
    handleSend s caller u
      = ({ s with sendLoading := false, sendError := some m, sendSuccess := none },
         some (sendTranscriptRequest s.transcript did 15000 caller)) ∧
    (handleSend s caller u).1.transcript = s.transcript ∧
    (handleSend s caller u).1.deviceId = s.deviceId ∧
    (handleSend s caller u).1.sendError = some m ∧
    (handleSend s caller u).1.sendSuccess = none ∧
    (handleSend s caller u).1.sendLoading = false := by
  have h1 : handleSend s caller u
      = ({ s with sendLoading := false, sendError := some m, sendSuccess := none },
         some (sendTranscriptRequest s.transcript did 15000 caller)) := by
    have hreq : (sendTranscript s.transcript did 15000 caller u).2
        = sendTranscriptRequest s.transcript did 15000 caller := rfl
    simp [handleSend, hg, hdid, hne, hm, hreq]
  refine ⟨h1, ?_, ?_, ?_, ?_, ?_⟩ <;> rw [h1]

/-- C8 witness: a 500 failure of the update-transcript endpoint leaves the
transcript and device id in place and shows the failure message. -/
theorem C8_send_failure_frame_witness :
    handleSend ⟨"hello there", some "dev-1", false, none, some "old success"⟩ "civilian"
        ⟨some 0, ⟨500, "Server Error", "boom", .error "x"⟩⟩
      = (⟨"hello there", some "dev-1", false,
          some ("Failed to send transcript: " ++ toString 500 ++ " " ++ "boom"), none⟩,
         some (sendTranscriptRequest "hello there" "dev-1" 15000 "civilian")) :=
  (C8_send_failure_frame ⟨"hello there", some "dev-1", false, none, some "old success"⟩
    "civilian" "dev-1" ("Failed to send transcript: " ++ toString 500 ++ " " ++ "boom")
    ⟨some 0, ⟨500, "Server Error", "boom", .error "x"⟩⟩
    (by decide) rfl (by decide) rfl).1

/-! ## Channel filtering lemmas (towards C9) -/

/-- An absent-or-empty first argument makes the JS or-chain fall through. -/
theorem jsOrVal_empty (x y : Option Json) (h : emptyOrAbsent x = true) : jsOrVal x y = y := by
  rcases x with _ | j
  · rfl
  · cases j <;> simp [emptyOrAbsent] at h <;> simp [jsOrVal, truthy, h]

/-- An absent-or-empty value contributes nothing to the filtered list. -/
theorem keepTruthy_empty (v : Option Json) (h : emptyOrAbsent v = true) :
    keepTruthy v = none := by
  rcases v with _ | j
  · rfl
  · cases j <;> simp [emptyOrAbsent] at h <;> simp [keepTruthy, truthy, h]

/-- A channel entry with all three fields absent or empty maps, without
throwing, to a value the filter drops. -/
theorem chanVal_empty (c : Json) (h : emptyChan c = true) :
    ∃ v, chanVal c = .ok v ∧ emptyOrAbsent v = true := by
  cases c with
  | obj fs =>
    simp only [emptyChan, Bool.and_eq_true] at h
    obtain ⟨⟨h1, h2⟩, h3⟩ := h
    refine ⟨_, rfl, ?_⟩
    show emptyOrAbsent
        (jsOrVal (jsOrVal (fs.lookup "content") (fs.lookup "text")) (fs.lookup "transcript"))
      = true
    rw [jsOrVal_empty _ _ h1, jsOrVal_empty _ _ h2]
    exact h3
  | null => simp [emptyChan] at h
  | bool b => simp [emptyChan] at h
  | num n => simp [emptyChan] at h
  | str s => simp [emptyChan] at h
  | arr es => simp [emptyChan] at h

/-- Dropping an absent-or-empty entry anywhere in the channels array does not
change the filtered texts. -/
theorem channelTexts_drop (c : Json) (h : emptyChan c = true) (l2 : List Json) :
    ∀ l1, channelTexts (l1 ++ c :: l2) = channelTexts (l1 ++ l2) := by
  obtain ⟨v, hcv, hv⟩ := chanVal_empty c h
  intro l1
  induction l1 with
  | nil =>
    show channelTexts (c :: l2) = channelTexts l2
    simp only [channelTexts, mapChanVals, hcv]
    cases hm : mapChanVals l2 with
    | error e => rfl
    | ok vs =>
      simp [Except.map, filterTruthyVals, List.filterMap_cons, keepTruthy_empty v hv]
  | cons a t ih =>
    show channelTexts (a :: (t ++ c :: l2)) = channelTexts (a :: (t ++ l2))
    simp only [channelTexts, mapChanVals]
    cases hca : chanVal a with
    | error e => rfl
    | ok w =>
      simp only [channelTexts] at ih
      cases hm1 : mapChanVals (t ++ c :: l2) with
      | error e1 =>
        cases hm2 : mapChanVals (t ++ l2) with
        | error e2 =>
          rw [hm1, hm2] at ih
          simp only [Except.map] at ih
          injection ih with ih2
          rw [ih2]
        | ok vs2 =>
          rw [hm1, hm2] at ih
          simp [Except.map] at ih
      | ok vs1 =>
        cases hm2 : mapChanVals (t ++ l2) with
        | error e2 =>
          rw [hm1, hm2] at ih
          simp [Except.map] at ih
        | ok vs2 =>
          rw [hm1, hm2] at ih
          simp only [Except.map] at ih
          injection ih with ih2
          simp [Except.map, filterTruthyVals, List.filterMap_cons]
          rw [show List.filterMap keepTruthy vs1 = List.filterMap keepTruthy vs2 from ih2]

/-- A channels array made only of absent-or-empty entries filters to nothing. -/
theorem channelTexts_all_empty (cs : List Json) (h : cs.all emptyChan = true) :
    channelTexts cs = .ok [] := by
  induction cs with
  | nil => rfl
  | cons c t ih =>
    simp only [List.all_cons, Bool.and_eq_true] at h
    obtain ⟨v, hcv, hv⟩ := chanVal_empty c h.1
    have ht := ih h.2
    simp only [channelTexts, mapChanVals, hcv]
    simp only [channelTexts] at ht
    cases hm : mapChanVals t with
    | error e => rw [hm] at ht; simp [Except.map] at ht
    | ok vs =>
      rw [hm] at ht
      simp only [Except.map] at ht
      injection ht with ht2
      simp only [Except.map, filterTruthyVals, List.filterMap_cons, keepTruthy_empty v hv]
      rw [show List.filterMap keepTruthy vs = [] from ht2]

/-- C9: in the channels-array case, an entry whose `content`, `text` and
`transcript` fields are all absent or empty strings is dropped before
joining, wherever it sits in the array; and when every entry is such
(including the empty array), the extraction returns the diagnostic fallback
carrying the serialized body, not an empty transcript. -/
theorem C9_channels_filter (c : Json) (cs l1 l2 : List Json)
    (hc : emptyChan c = true) (hall : cs.all emptyChan = true) :
    channelTexts (l1 ++ c :: l2) = channelTexts (l1 ++ l2) ∧
    transcribeResponse (.obj [("channels", .arr cs)])
      = .ok (diagnostic (.obj [("channels", .arr cs)])) := by
  refine ⟨channelTexts_drop c hc l2 l1, ?_⟩
  have hstep : transcribeResponse (.obj [("channels", .arr cs)])
      = match channelTexts cs with
        | .error e => .error e
        | .ok [] => .ok (diagnostic (.obj [("channels", .arr cs)]))
        | .ok (t :: ts) => .ok (String.intercalate " " ((t :: ts).map jsToString)) := rfl
  rw [hstep, channelTexts_all_empty cs hall]

/-- C9 witness: one all-empty object entry is dropped, and a channels array
of an empty-content entry and a fieldless entry yields the diagnostic. -/
theorem C9_channels_filter_witness :
    channelTexts ([] ++ Json.obj [("content", Json.str "")] :: []) = channelTexts ([] ++ []) ∧
    transcribeResponse
        (.obj [("channels", .arr [Json.obj [("content", Json.str "")], Json.obj []])])
      = .ok (diagnostic
          (.obj [("channels", .arr [Json.obj [("content", Json.str "")], Json.obj []])])) :=
  C9_channels_filter (Json.obj [("content", Json.str "")])
    [Json.obj [("content", Json.str "")], Json.obj []] [] []
    (by decide) (by decide)

/-- C1 counterexample: two success-status JSON bodies on which the claimed
extraction policy fails. The body that is the JSON empty string is a string,
yet it is not returned whole — the falsiness guard of line 59 replaces it
with the fixed no-transcription message; and the body `42` makes the
extraction throw a `TypeError` (the `in` operator applied to a primitive at
line 63) instead of returning anything, contradicting that `transcribeAudio`
never throws on a success-status response. -/
theorem C1_extraction_counterexample :
    transcribeResponse (Json.str "") ≠ .ok "" ∧
    transcribeResponse (Json.str "") = .ok noTranscriptionMsg ∧
    transcribeResponse (Json.num 42) = .error .jsTypeError := by
  refine ⟨?_, rfl, rfl⟩
  intro hcontra
  have h1 : transcribeResponse (Json.str "") = .ok noTranscriptionMsg := rfl
  rw [h1] at hcontra
  injection hcontra with h2
  exact absurd h2 (by decide)

/-- C1 (amended): the extraction policy as the code implements it. A falsy
body (`null`, `false`, `0`, the empty string) yields the fixed
no-transcription message; a non-empty string body is returned whole; a
truthy non-string primitive body (`true`, a non-zero number) throws a
`TypeError`; an object body is read through the first string-valued field
among `text`, `content`, `transcript`, then through a `channels` array
(joining the kept channel texts with single spaces, the diagnostic when
nothing is kept), and otherwise — as for any array body — the diagnostic
string carrying the serialized body is returned. The three examples of the
claim hold. -/
theorem C1_amended_extraction :
    (∀ s : String, s ≠ "" → transcribeResponse (.str s) = .ok s) ∧
    (∀ fs t, strField (.obj fs) "text" = some t → transcribeResponse (.obj fs) = .ok t) ∧
    (∀ fs t, strField (.obj fs) "text" = none → strField (.obj fs) "content" = some t →
      transcribeResponse (.obj fs) = .ok t) ∧
    (∀ fs t, strField (.obj fs) "text" = none → strField (.obj fs) "content" = none →
      strField (.obj fs) "transcript" = some t → transcribeResponse (.obj fs) = .ok t) ∧
    (∀ fs cs t ts, strField (.obj fs) "text" = none → strField (.obj fs) "content" = none →
      strField (.obj fs) "transcript" = none →
      getField (.obj fs) "channels" = some (.arr cs) → channelTexts cs = .ok (t :: ts) →
      transcribeResponse (.obj fs)
        = .ok (String.intercalate " " ((t :: ts).map jsToString))) ∧
    (∀ fs cs, strField (.obj fs) "text" = none → strField (.obj fs) "content" = none →
      strField (.obj fs) "transcript" = none →
      getField (.obj fs) "channels" = some (.arr cs) → channelTexts cs = .ok [] →
      transcribeResponse (.obj fs) = .ok (diagnostic (.obj fs))) ∧
    (∀ fs, strField (.obj fs) "text" = none → strField (.obj fs) "content" = none →
      strField (.obj fs) "transcript" = none → getField (.obj fs) "channels" = none →
      transcribeResponse (.obj fs) = .ok (diagnostic (.obj fs))) ∧
    (∀ es : List Json, transcribeResponse (.arr es) = .ok (diagnostic (.arr es))) ∧
    (transcribeResponse (.str "") = .ok noTranscriptionMsg) ∧
    (transcribeResponse .null = .ok noTranscriptionMsg) ∧
    (transcribeResponse (.bool false) = .ok noTranscriptionMsg) ∧
    (transcribeResponse (.num 0) = .ok noTranscriptionMsg) ∧
    (transcribeResponse (.bool true) = .error .jsTypeError) ∧
    (∀ n : Int, n ≠ 0 → transcribeResponse (.num n) = .error .jsTypeError) ∧
    (transcribeResponse (.obj [("text", .str "hello")]) = .ok "hello") ∧
    (transcribeResponse (.obj [("channels",
        .arr [.obj [("content", .str "a")], .obj [("text", .str "b")]])]) = .ok "a b") ∧
    (transcribeResponse (.obj []) = .ok ("Unexpected transcription response: "
        ++ stringify (.obj []))) := by
  refine ⟨?_, ?_, ?_, ?_, ?_, ?_, ?_, ?_, rfl, rfl, rfl, rfl, rfl, ?_, rfl, rfl, rfl⟩
  · intro s hs
    simp [transcribeResponse, truthy, hs]
  · intro fs t h1
    simp [transcribeResponse, truthy, h1]
  · intro fs t h1 h2
    simp [transcribeResponse, truthy, h1, h2]
  · intro fs t h1 h2 h3
    simp [transcribeResponse, truthy, h1, h2, h3]
  · intro fs cs t ts h1 h2 h3 h4 h5
    simp [transcribeResponse, truthy, h1, h2, h3, h4, h5]
  · intro fs cs h1 h2 h3 h4 h5
    simp [transcribeResponse, truthy, h1, h2, h3, h4, h5]
  · intro fs h1 h2 h3 h4
    simp [transcribeResponse, truthy, h1, h2, h3, h4]
  · intro es
    rfl
  · intro n hn
    simp [transcribeResponse, truthy, hn]

/-- C1 (amended) witness: a non-empty string body is returned whole, and a
string-valued `text` field is used. -/
theorem C1_amended_extraction_witness :
    transcribeResponse (.str "direct body") = .ok "direct body" ∧
    transcribeResponse (.obj [("text", Json.str "hi")]) = .ok "hi" :=
  ⟨C1_amended_extraction.1 "direct body" (by decide),
   C1_amended_extraction.2.1 [("text", Json.str "hi")] "hi" rfl⟩

end Vigilis
